import Mathlib

/-!
Verification development for the nats-top dashboard (`src/nats-top.go`).

The embedding models:
* Go strings as lists of bytes (`List Nat`), with rune appends performed by
  UTF-8 encoding — this matches Go's `s += string(r)` and `s[:len(s)-1]`.
* the pure formatting function `generateParagraph` (lines 154-258), including
  its in-place `sort.Sort` of the snapshot connection slice, modelled as
  returning the updated snapshot alongside the text;
* the `StartUI` event loop (lines 268-468) as a handler `handle` mapping the
  loop state and one terminal event to the next state plus its observable
  effects.  A Go `continue` is an early return of the handler; the fall-through
  `if` blocks of the loop body are the cascade `afterSort`, `afterLimit`, ….
* the goroutine spawned for an invalid sort token (lines 361-369) as two
  pending asynchronous phases recorded in the state: `dwellFlagStep`
  (the pre-sleep write `waitingSortOption = false`) and `dwellClearStep`
  (the post-sleep `optionBuf = ""`); the inline error display and its
  1-second dwell (`time.Sleep(1 * time.Second)`) are recorded in the
  handler result when the goroutine is spawned.

Float64 fields of the snapshot (`CPU`, the rates) are displayed only through
`%.1f`; no claim depends on their arithmetic, so they are carried as `Int`
and rendered through an abstract one-decimal formatter `fmtF1`.
-/

/-- UTF-8 encoding of one rune, as Go produces for `string(r)` appends.
Byte values are `Nat`s below 256. -/
def utf8Char (c : Char) : List Nat :=
  let n := c.toNat
  if n < 0x80 then [n]
  else if n < 0x800 then [0xC0 + n / 64, 0x80 + n % 64]
  else if n < 0x10000 then [0xE0 + n / 4096, 0x80 + n / 64 % 64, 0x80 + n % 64]
  else [0xF0 + n / 0x40000, 0x80 + n / 4096 % 64, 0x80 + n / 64 % 64, 0x80 + n % 64]

/-- A Go string literal as its byte sequence. -/
def strBytes (s : String) : List Nat :=
  s.data.foldr (fun c acc => utf8Char c ++ acc) []

/-- Modelled from the spec: the sort-option token constants
(`SortByCid`, `SortBySubs`, `SortByPending`, `SortByOutMsgs`, `SortByInMsgs`,
`SortByOutBytes`, `SortByInBytes`) live in the dot-imported
`nats-top/util` package, which is not under `src/`; their string values are
fixed by spec §4.2 and the in-program help text
(`cid|subs|pending|msgs_to|msgs_from|bytes_to|bytes_from`). -/
def SortByCid : List Nat := strBytes "cid"

/-- Modelled from the spec: see `SortByCid`. -/
def SortBySubs : List Nat := strBytes "subs"

/-- Modelled from the spec: see `SortByCid`. -/
def SortByPending : List Nat := strBytes "pending"

/-- Modelled from the spec: see `SortByCid`. `msgs_to` sorts by the
out-message counter (the MSGS_TO column). -/
def SortByOutMsgs : List Nat := strBytes "msgs_to"

/-- Modelled from the spec: see `SortByCid`. -/
def SortByInMsgs : List Nat := strBytes "msgs_from"

/-- Modelled from the spec: see `SortByCid`. -/
def SortByOutBytes : List Nat := strBytes "bytes_to"

/-- Modelled from the spec: see `SortByCid`. -/
def SortByInBytes : List Nat := strBytes "bytes_from"

/-- The seven recognized sort tokens, in the order of the `switch` cases at
lines 114 and 358 of `src/nats-top.go`. -/
def sortTokens : List (List Nat) :=
  [SortByCid, SortBySubs, SortByPending, SortByOutMsgs, SortByInMsgs,
   SortByOutBytes, SortByInBytes]

/-- The `switch sortOpt { case SortByCid, ... }` membership test
(lines 357-371). -/
def validSortToken (b : List Nat) : Bool := decide (b ∈ sortTokens)

/-- `gnatsd.Info` — only the `Version` field is read (line 172). -/
structure Info where
  Version : String
deriving DecidableEq

/-- `gnatsd.Varz` server vitals, restricted to the fields `generateParagraph`
reads (lines 160-172).  `CPU` is a float64 in Go, modelled opaquely. -/
structure Varz where
  CPU : Int
  Mem : Int
  Uptime : String
  InMsgs : Int
  OutMsgs : Int
  InBytes : Int
  OutBytes : Int
  SlowConsumers : Int
  Info : Option Info
deriving DecidableEq

/-- One `gnatsd.ConnInfo` row, restricted to the fields read in
lines 239-252. -/
structure Conn where
  Cid : Nat
  IP : String
  Port : Int
  Name : String
  NumSubs : Nat
  Pending : Int
  OutMsgs : Int
  InMsgs : Int
  OutBytes : Int
  InBytes : Int
  Lang : String
  Version : String
  Uptime : String
  LastActivity : String
  Subs : List String
deriving DecidableEq

/-- `gnatsd.Connz` (lines 163, 224-255). -/
structure Connz where
  NumConns : Int
  Conns : List Conn
deriving DecidableEq

/-- `Rates` from the util package: per-second deltas delivered inside each
snapshot (lines 180-183).  Float64 in Go, modelled opaquely. -/
structure Rates where
  InMsgsRate : Int
  OutMsgsRate : Int
  InBytesRate : Int
  OutBytesRate : Int
deriving DecidableEq

/-- `Stats`: one snapshot (Varz + Connz + Rates). -/
structure Stats where
  Varz : Varz
  Connz : Connz
  Rates : Rates
deriving DecidableEq

/-- The fields of `util.Engine` that the UI reads and writes:
`SortOpt` (a `gnatsd.SortOpt`, i.e. a string), `Conns` (the `-n` sample
limit, a Go `int`), `Delay`, and `DisplaySubs`. -/
structure Engine where
  SortOpt : List Nat
  Conns : Int
  Delay : Int
  DisplaySubs : Bool
deriving DecidableEq

/-- Modelled from the spec: `util.Psize` is not under `src/`; spec §4.1 fixes
its contract — show the raw byte count below 1024, otherwise scale to
K/M/G/T with one decimal place.  The decimal is produced with integer
arithmetic; no claim depends on the exact digits. -/
def Psize (n : Int) : String :=
  let oneDec : Int → Int → String := fun v d =>
    toString (v * 10 / d / 10) ++ "." ++ toString ((v * 10 / d % 10).natAbs)
  if n < 1024 then toString n
  else if n < 1024 * 1024 then oneDec n 1024 ++ "K"
  else if n < 1024 * 1024 * 1024 then oneDec n (1024 * 1024) ++ "M"
  else if n < 1024 * 1024 * 1024 * 1024 then oneDec n (1024 * 1024 * 1024) ++ "G"
  else oneDec n (1024 * 1024 * 1024 * 1024) ++ "T"

/-- Abstract one-decimal rendering of an (opaquely modelled) float64,
for the `%.1f` verbs. -/
def fmtF1 (n : Int) : String := toString n ++ ".0"

/-- Go `fmt`'s `%-Ns` / `%-Nd`: left-justify, pad with spaces to minimum
width `w`. -/
def padR (w : Nat) (s : String) : String :=
  s ++ String.mk (List.replicate (w - s.length) ' ')

/-- Go `fmt`'s `%Ns`: right-justify to minimum width `w`. -/
def padL (w : Nat) (s : String) : String :=
  String.mk (List.replicate (w - s.length) ' ') ++ s

/-- Comparator `r a b` meaning "`a` may precede `b`" under `ByCid`
(ascending connection id): `sort.Sort(ByCid(conns))`, line 224.
Modelled from the spec for the `util` comparator types: `resolve(token)`
maps the id token to an ascending comparison on the id field. -/
def cidLe (a b : Conn) : Prop := a.Cid ≤ b.Cid

/-- "May precede" under `sort.Reverse(BySubs(conns))` (line 226):
descending subscription count.  Modelled from the spec (see `cidLe`). -/
def subsGe (a b : Conn) : Prop := b.NumSubs ≤ a.NumSubs

/-- "May precede" under `sort.Reverse(ByPending(conns))` (line 228). -/
def pendingGe (a b : Conn) : Prop := b.Pending ≤ a.Pending

/-- "May precede" under `sort.Reverse(ByMsgsTo(conns))` (line 230). -/
def msgsToGe (a b : Conn) : Prop := b.OutMsgs ≤ a.OutMsgs

/-- "May precede" under `sort.Reverse(ByMsgsFrom(conns))` (line 232). -/
def msgsFromGe (a b : Conn) : Prop := b.InMsgs ≤ a.InMsgs

/-- "May precede" under `sort.Reverse(ByBytesTo(conns))` (line 234). -/
def bytesToGe (a b : Conn) : Prop := b.OutBytes ≤ a.OutBytes

/-- "May precede" under `sort.Reverse(ByBytesFrom(conns))` (line 236). -/
def bytesFromGe (a b : Conn) : Prop := b.InBytes ≤ a.InBytes

instance : DecidableRel cidLe := fun a b => inferInstanceAs (Decidable (a.Cid ≤ b.Cid))
instance : DecidableRel subsGe := fun a b => inferInstanceAs (Decidable (b.NumSubs ≤ a.NumSubs))
instance : DecidableRel pendingGe := fun a b => inferInstanceAs (Decidable (b.Pending ≤ a.Pending))
instance : DecidableRel msgsToGe := fun a b => inferInstanceAs (Decidable (b.OutMsgs ≤ a.OutMsgs))
instance : DecidableRel msgsFromGe := fun a b => inferInstanceAs (Decidable (b.InMsgs ≤ a.InMsgs))
instance : DecidableRel bytesToGe := fun a b => inferInstanceAs (Decidable (b.OutBytes ≤ a.OutBytes))
instance : DecidableRel bytesFromGe := fun a b => inferInstanceAs (Decidable (b.InBytes ≤ a.InBytes))

instance : IsTotal Conn cidLe := ⟨fun a b => Nat.le_total a.Cid b.Cid⟩
instance : IsTrans Conn cidLe := ⟨fun _ _ _ h1 h2 => Nat.le_trans h1 h2⟩
instance : IsTotal Conn subsGe := ⟨fun a b => Nat.le_total b.NumSubs a.NumSubs⟩
instance : IsTrans Conn subsGe := ⟨fun _ _ _ h1 h2 => Nat.le_trans h2 h1⟩
instance : IsTotal Conn pendingGe := ⟨fun a b => Int.le_total b.Pending a.Pending⟩
instance : IsTrans Conn pendingGe := ⟨fun _ _ _ h1 h2 => Int.le_trans h2 h1⟩
instance : IsTotal Conn msgsToGe := ⟨fun a b => Int.le_total b.OutMsgs a.OutMsgs⟩
instance : IsTrans Conn msgsToGe := ⟨fun _ _ _ h1 h2 => Int.le_trans h2 h1⟩
instance : IsTotal Conn msgsFromGe := ⟨fun a b => Int.le_total b.InMsgs a.InMsgs⟩
instance : IsTrans Conn msgsFromGe := ⟨fun _ _ _ h1 h2 => Int.le_trans h2 h1⟩
instance : IsTotal Conn bytesToGe := ⟨fun a b => Int.le_total b.OutBytes a.OutBytes⟩
instance : IsTrans Conn bytesToGe := ⟨fun _ _ _ h1 h2 => Int.le_trans h2 h1⟩
instance : IsTotal Conn bytesFromGe := ⟨fun a b => Int.le_total b.InBytes a.InBytes⟩
instance : IsTrans Conn bytesFromGe := ⟨fun _ _ _ h1 h2 => Int.le_trans h2 h1⟩

/-- The `switch engine.SortOpt` at lines 222-237: sort the connection slice
with the comparator selected by the token, reversed for every key except the
connection id.  `sort.Sort`'s contract (a permutation with no inversion under
`Less`) is realised by `List.insertionSort` with the corresponding
"may precede" relation.  A token outside the seven cases leaves the slice
untouched (the `switch` has no default case). -/
def sortConns (opt : List Nat) (l : List Conn) : List Conn :=
  if opt = SortByCid then List.insertionSort cidLe l
  else if opt = SortBySubs then List.insertionSort subsGe l
  else if opt = SortByPending then List.insertionSort pendingGe l
  else if opt = SortByOutMsgs then List.insertionSort msgsToGe l
  else if opt = SortByInMsgs then List.insertionSort msgsFromGe l
  else if opt = SortByOutBytes then List.insertionSort bytesToGe l
  else if opt = SortByInBytes then List.insertionSort bytesFromGe l
  else l

/-- One rendered connection row (lines 240-254): `connValues` applied to the
row's fields, with the joined subscription list appended when
`engine.DisplaySubs` is set. -/
def connLine (engine : Engine) (conn : Conn) : String :=
  let host := conn.IP ++ ":" ++ toString conn.Port
  let base :=
    "  " ++ padR 20 host ++ " " ++ padR 8 (toString conn.Cid) ++ " " ++
    padR 15 conn.Name ++ " " ++ padR 6 (toString conn.NumSubs) ++ "  " ++
    padR 10 (Psize conn.Pending) ++ "  " ++ padR 10 (Psize conn.OutMsgs) ++ "  " ++
    padR 10 (Psize conn.InMsgs) ++ "  " ++ padR 10 (Psize conn.OutBytes) ++ "  " ++
    padR 10 (Psize conn.InBytes) ++ "  " ++ padR 7 conn.Lang ++ "  " ++
    padR 7 conn.Version ++ "  " ++ padR 7 conn.Uptime ++ "  " ++
    padR 40 conn.LastActivity
  if engine.DisplaySubs then
    base ++ String.intercalate ", " conn.Subs ++ "\n"
  else
    base ++ "\n"

/-- The text above the connection rows (lines 160-214): the vitals block, the
connection count, and the column-header row (which gains a trailing
SUBSCRIPTIONS column exactly when `engine.DisplaySubs` is set). -/
def dashboardHeader (engine : Engine) (stats : Stats) : String :=
  let serverVersion : String :=
    match stats.Varz.Info with
    | some info => info.Version
    | none => ""
  let text :=
    "gnatsd version " ++ serverVersion ++ " (uptime: " ++ stats.Varz.Uptime ++ ")" ++
    "\nServer:\n  Load: CPU:  " ++ fmtF1 stats.Varz.CPU ++ "%  Memory: " ++
    Psize stats.Varz.Mem ++ "  Slow Consumers: " ++ toString stats.Varz.SlowConsumers ++
    "\n" ++
    "  In:   Msgs: " ++ Psize stats.Varz.InMsgs ++ "  Bytes: " ++
    Psize stats.Varz.InBytes ++ "  Msgs/Sec: " ++ fmtF1 stats.Rates.InMsgsRate ++
    "  Bytes/Sec: " ++ Psize stats.Rates.InBytesRate ++ "\n" ++
    "  Out:  Msgs: " ++ Psize stats.Varz.OutMsgs ++ "  Bytes: " ++
    Psize stats.Varz.OutBytes ++ "  Msgs/Sec: " ++ fmtF1 stats.Rates.OutMsgsRate ++
    "  Bytes/Sec: " ++ Psize stats.Rates.OutBytesRate
  let text := text ++ "\n\nConnections: " ++ toString stats.Connz.NumConns ++ "\n"
  let headerRow :=
    "  " ++ padR 20 "HOST" ++ " " ++ padR 8 "CID" ++ " " ++ padR 15 "NAME" ++ " " ++
    padR 6 "SUBS" ++ "  " ++ padR 10 "PENDING" ++ "  " ++ padR 10 "MSGS_TO" ++ "  " ++
    padR 10 "MSGS_FROM" ++ "  " ++ padR 10 "BYTES_TO" ++ "  " ++
    padR 10 "BYTES_FROM" ++ "  " ++ padR 7 "LANG" ++ "  " ++ padR 7 "VERSION" ++ "  " ++
    padR 7 "UPTIME" ++ "  " ++ padR 40 "LAST ACTIVITY"
  let headerRow :=
    if engine.DisplaySubs then headerRow ++ padL 13 "SUBSCRIPTIONS" ++ "\n"
    else headerRow ++ "\n"
  text ++ headerRow

/-- `generateParagraph` (lines 154-258).  The Go function sorts
`stats.Connz.Conns` in place (lines 222-237) and then renders one row per
connection in the sorted order; the in-place mutation is modelled by
returning the updated snapshot alongside the text. -/
def generateParagraph (engine : Engine) (stats : Stats) : String × Stats :=
  let sorted := sortConns engine.SortOpt stats.Connz.Conns
  let text := dashboardHeader engine stats ++
    String.join (sorted.map (connLine engine))
  (text, { stats with Connz := { stats.Connz with Conns := sorted } })

/-- The ordering the active sort key demands of the rendered rows: the sorted
field is non-increasing for the six count/byte keys, the connection id
non-decreasing for the id key; an unrecognized token demands nothing. -/
def keySorted (opt : List Nat) (l : List Conn) : Prop :=
  if opt = SortByCid then l.Sorted cidLe
  else if opt = SortBySubs then l.Sorted subsGe
  else if opt = SortByPending then l.Sorted pendingGe
  else if opt = SortByOutMsgs then l.Sorted msgsToGe
  else if opt = SortByInMsgs then l.Sorted msgsFromGe
  else if opt = SortByOutBytes then l.Sorted bytesToGe
  else if opt = SortByInBytes then l.Sorted bytesFromGe
  else True

/-- Terminal event classes of the `termui`/`termbox` stream: key events and
resize events (`ui.EventKey`, `ui.EventResize`). -/
inductive EvType where
  | key
  | resize
deriving DecidableEq

/-- The special-key codes the loop compares against (`ui.KeyEnter`,
`ui.KeyBackspace`, `ui.KeyBackspace2`, `ui.KeyCtrlC`); `none` stands for any
other key code, in particular the zero code carried by printable-rune
events. -/
inductive KeyCode where
  | enter
  | backspace
  | backspace2
  | ctrlC
  | none
deriving DecidableEq

/-- One event from `ui.EventCh()`: its type, key code and rune.  Printable
keys carry the rune in `Ch` with a zero key code; special keys carry a zero
rune. -/
structure Event where
  etype : EvType
  key : KeyCode
  Ch : Char
deriving DecidableEq

/-- The two view grids toggled at lines 430-456. -/
inductive ViewMode where
  | top
  | help
deriving DecidableEq

/-- The mutable state of the `StartUI` event loop: the shared `Engine`
configuration, the two awaiting-mode flags, the mirror flag
`displaySubscriptions`, the option buffer (a Go string: bytes), the view
mode, and the phases of dwell goroutines spawned for invalid sort tokens
that have not yet run (`pending1`: the pre-sleep write
`waitingSortOption = false` still to come; `pending2`: slept, the buffer
clear still to come). -/
structure UIState where
  engine : Engine
  waitingSortOption : Bool
  waitingLimitOption : Bool
  displaySubscriptions : Bool
  optionBuf : List Nat
  viewMode : ViewMode
  pending1 : Nat
  pending2 : Nat
deriving DecidableEq

/-- The observable outcome of handling one event: the successor state,
whether the quit path ran (`close(shutdownCh)` at line 416 and `cleanExit`),
how many terminal-state restorations were performed (`cleanExit`, lines
138-145, restores the screen and cursor once and exits), and — when the
invalid-sort goroutine was spawned — the dwell, in seconds, of the inline
error display (`time.Sleep(1 * time.Second)`, line 366). -/
structure Res where
  st : UIState
  quit : Bool
  shutdownClosed : Bool
  restores : Nat
  errDwell : Option Nat
deriving DecidableEq

/-- A result with no effect beyond the state change. -/
def noEff (s : UIState) : Res :=
  { st := s, quit := false, shutdownClosed := false, restores := 0, errDwell := none }

/-- Lines 379-385 / 405-411: on a key event with a non-empty buffer and a
backspace-class key, drop the last byte (`optionBuf[:len(optionBuf)-1]`);
otherwise append the event's rune (`optionBuf += string(e.Ch)` — for a
special key the rune is 0, so a NUL byte is appended). -/
def bufEdit (s : UIState) (e : Event) : UIState :=
  if e.etype = EvType.key ∧ s.optionBuf ≠ [] ∧
      (e.key = KeyCode.backspace ∨ e.key = KeyCode.backspace2) then
    { s with optionBuf := s.optionBuf.dropLast }
  else
    { s with optionBuf := s.optionBuf ++ utf8Char e.Ch }

/-- Go `fmt.Sscanf(buf, "%d", &n)` on the buffer's bytes: skip leading
blanks, an optional sign, then at least one decimal digit; trailing input is
ignored; the parse fails (non-nil error) when no digit is found or the value
overflows a 64-bit int. -/
def sscanfD (b : List Nat) : Option Int :=
  let b1 := b.dropWhile (fun c => c = 32 ∨ c = 9)
  let sign : Int := if b1.head? = some 45 then -1 else 1
  let b2 := if b1.head? = some 45 ∨ b1.head? = some 43 then b1.tail else b1
  let digits := b2.takeWhile (fun c => 48 ≤ c ∧ c ≤ 57)
  if digits = [] then none
  else
    let v : Int := sign * (digits.foldl (fun acc d => acc * 10 + (d - 48)) 0 : Nat)
    if v < -(2 ^ 63) ∨ 2 ^ 63 - 1 < v then none else some v

/-- Line 458-462: a resize event realigns the grid and signals a redraw;
no modelled state changes. -/
def afterH (s : UIState) (_ : Event) : Res := noEff s

/-- Lines 446-456: `?`/`h` enter the help view when no awaiting mode is
active; from the top view the prompt line and buffer are cleared first; both
awaiting flags are (re)set to false.  Falls through to the resize check. -/
def afterN (s : UIState) (e : Event) : Res :=
  if e.etype = EvType.key ∧ (e.Ch = '?' ∨ e.Ch = 'h') ∧
      ¬(s.waitingSortOption = true ∨ s.waitingLimitOption = true) then
    if s.viewMode = ViewMode.top then
      afterH { s with optionBuf := [], viewMode := ViewMode.help,
                      waitingLimitOption := false, waitingSortOption := false } e
    else
      afterH { s with viewMode := ViewMode.help,
                      waitingLimitOption := false, waitingSortOption := false } e
  else afterH s e

/-- Lines 441-444: `n` opens the limit prompt unless the sort prompt is
active or the help view is shown.  Falls through. -/
def afterO (s : UIState) (e : Event) : Res :=
  if e.etype = EvType.key ∧ e.Ch = 'n' ∧ s.waitingSortOption = false ∧
      s.viewMode = ViewMode.top then
    afterN { s with waitingLimitOption := true } e
  else afterN s e

/-- Lines 436-439: `o` opens the sort prompt unless the limit prompt is
active or the help view is shown.  Falls through. -/
def afterHelpDismiss (s : UIState) (e : Event) : Res :=
  if e.etype = EvType.key ∧ e.Ch = 'o' ∧ s.waitingLimitOption = false ∧
      s.viewMode = ViewMode.top then
    afterO { s with waitingSortOption := true } e
  else afterO s e

/-- Lines 430-434: any key event while the help view is shown switches back
to the top view and ends the iteration (`continue`). -/
def afterS (s : UIState) (e : Event) : Res :=
  if e.etype = EvType.key ∧ s.viewMode = ViewMode.help then
    noEff { s with viewMode := ViewMode.top }
  else afterHelpDismiss s e

/-- Lines 420-428: `s` toggles `displaySubscriptions` and
`engine.DisplaySubs` when no awaiting mode is active (the view mode is not
consulted).  Falls through to the help-dismiss check. -/
def afterQuit (s : UIState) (e : Event) : Res :=
  if e.etype = EvType.key ∧ e.Ch = 's' ∧
      ¬(s.waitingLimitOption = true ∨ s.waitingSortOption = true) then
    afterS { s with displaySubscriptions := ¬s.displaySubscriptions,
                    engine := { s.engine with DisplaySubs := ¬s.engine.DisplaySubs } } e
  else afterS s e

/-- Lines 415-418: `q` or Ctrl-C closes the shutdown channel and calls
`cleanExit`, which restores the terminal once and exits the process. -/
def afterLimit (s : UIState) (e : Event) : Res :=
  if e.etype = EvType.key ∧ (e.Ch = 'q' ∨ e.key = KeyCode.ctrlC) then
    { st := s, quit := true, shutdownClosed := true, restores := 1, errDwell := none }
  else afterQuit s e

/-- Lines 389-413: the limit-prompt block.  Enter parses the buffer with
`fmt.Sscanf "%d"`, stores the value in `engine.Conns` on success, and in
either case leaves the awaiting mode with the buffer cleared
(`continue`); any other event edits the buffer and falls through. -/
def afterSort (s : UIState) (e : Event) : Res :=
  if s.waitingLimitOption = true then
    if e.etype = EvType.key ∧ e.key = KeyCode.enter then
      match sscanfD s.optionBuf with
      | some n =>
          noEff { s with engine := { s.engine with Conns := n },
                         waitingLimitOption := false, optionBuf := [] }
      | none =>
          noEff { s with waitingLimitOption := false, optionBuf := [] }
    else afterLimit (bufEdit s e) e
  else afterLimit s e

/-- Lines 348-467, one iteration of the event loop on an input event.
The first block (lines 352-387) is the sort-prompt capture: enter either
commits a recognized token to `engine.SortOpt` and leaves the mode
(`continue`), or — for an unrecognized token — spawns the dwell goroutine
(recorded as a new `pending1` phase plus the 1-second inline error display)
and ends the iteration; any other event edits the buffer and falls through
to the later blocks. -/
def handle (s : UIState) (e : Event) : Res :=
  if s.waitingSortOption = true then
    if e.etype = EvType.key ∧ e.key = KeyCode.enter then
      if validSortToken s.optionBuf then
        noEff { s with engine := { s.engine with SortOpt := s.optionBuf },
                       waitingSortOption := false, optionBuf := [] }
      else
        { st := { s with pending1 := s.pending1 + 1 },
          quit := false, shutdownClosed := false, restores := 0, errDwell := some 1 }
    else afterSort (bufEdit s e) e
  else afterSort s e

/-- The pre-sleep write of one pending dwell goroutine (lines 364-365):
print the inline error and set `waitingSortOption = false`; the goroutine
then sleeps for the dwell. -/
def dwellFlagStep (s : UIState) : UIState :=
  if s.pending1 = 0 then s
  else { s with waitingSortOption := false,
                pending1 := s.pending1 - 1, pending2 := s.pending2 + 1 }

/-- The post-sleep write of one pending dwell goroutine (lines 367-368):
clear the prompt line and the buffer. -/
def dwellClearStep (s : UIState) : UIState :=
  if s.pending2 = 0 then s
  else { s with optionBuf := [], pending2 := s.pending2 - 1 }

/-- One atomic occurrence in an execution of the loop: an input event
arriving on `evt`, or one of the two asynchronous writes of a pending dwell
goroutine interleaving with the loop. -/
inductive Act where
  | ev (e : Event)
  | dwellFlag
  | dwellClear
deriving DecidableEq

/-- Apply one occurrence to the loop state.  (On the quit path the process
exits; the carried state is still a sound successor for invariants.) -/
def stepAct (s : UIState) (a : Act) : UIState :=
  match a with
  | Act.ev e => (handle s e).st
  | Act.dwellFlag => dwellFlagStep s
  | Act.dwellClear => dwellClearStep s

/-- Process a sequence of occurrences. -/
def runActs (s : UIState) (l : List Act) : UIState :=
  l.foldl stepAct s

/-- The loop state at the top of `StartUI` (lines 308, 326-330): both
awaiting flags false, subscriptions hidden, empty buffer, top view, no
pending dwell goroutines; the engine carries the CLI configuration. -/
def initState (engine : Engine) : UIState :=
  { engine := engine, waitingSortOption := false, waitingLimitOption := false,
    displaySubscriptions := false, optionBuf := [], viewMode := ViewMode.top,
    pending1 := 0, pending2 := 0 }

/-- Process a sequence of input events (no dwell interleavings). -/
def runEvents (s : UIState) (l : List Event) : UIState :=
  l.foldl (fun s e => (handle s e).st) s

/-- A printable-rune event: zero key code, the rune in `Ch`. -/
def chEvt (c : Char) : Event :=
  { etype := EvType.key, key := KeyCode.none, Ch := c }

/-- The enter key event (`ui.KeyEnter`, zero rune). -/
def enterEvt : Event :=
  { etype := EvType.key, key := KeyCode.enter, Ch := Char.ofNat 0 }

/-- The backspace key event (`ui.KeyBackspace`, zero rune). -/
def backspaceEvt : Event :=
  { etype := EvType.key, key := KeyCode.backspace, Ch := Char.ofNat 0 }

/-- A CLI configuration used by concrete witnesses: the defaults of the flag
block (lines 25-29) after startup validation. -/
def engine0 : Engine :=
  { SortOpt := SortByCid, Conns := 1024, Delay := 1, DisplaySubs := false }

/-- The loop's initial state under `engine0`. -/
def state0 : UIState := initState engine0

/-- The initial state with the help view shown. -/
def helpState : UIState := { state0 with viewMode := ViewMode.help }

/-- The initial state with the sort prompt open and an empty buffer. -/
def sortModeState : UIState := { state0 with waitingSortOption := true }

/-- The limit prompt open with the typed buffer `-5`. -/
def limitCexState : UIState :=
  { state0 with waitingLimitOption := true, optionBuf := strBytes "-5" }

/-- The sort prompt open with the unrecognized typed buffer `xyz`. -/
def sortCexState : UIState :=
  { state0 with waitingSortOption := true, optionBuf := strBytes "xyz" }

/-- A connection record with zero counters, used by concrete witnesses. -/
def connOfCid (cid : Nat) (pending : Int) : Conn :=
  { Cid := cid, IP := "127.0.0.1", Port := 4222, Name := "", NumSubs := 0,
    Pending := pending, OutMsgs := 0, InMsgs := 0, OutBytes := 0, InBytes := 0,
    Lang := "go", Version := "1", Uptime := "1s", LastActivity := "now",
    Subs := [] }

/-- A two-connection snapshot with the connection ids out of ascending
order. -/
def statsCex : Stats :=
  { Varz := { CPU := 0, Mem := 0, Uptime := "", InMsgs := 0, OutMsgs := 0,
              InBytes := 0, OutBytes := 0, SlowConsumers := 0, Info := none },
    Connz := { NumConns := 2, Conns := [connOfCid 2 500, connOfCid 1 1500] },
    Rates := { InMsgsRate := 0, OutMsgsRate := 0, InBytesRate := 0,
               OutBytesRate := 0 } }

/-- The execution contexts of the program that touch the dashboard state:
the `StartUI` goroutine running the `select` loop (which also performs the
pre-loop initialisation), the `update` goroutine started at line 346, and a
goroutine spawned at line 361 for an invalid sort token. -/
inductive GoCtx where
  | eventLoop
  | updateGoroutine
  | dwellGoroutine
deriving DecidableEq

/-- The pieces of shared mutable state named by the spec's single-thread
requirement: the three `Engine` configuration fields, the two awaiting-mode
flags, the option buffer, the shared paragraph text (`text` / `par.Text`),
the terminal surface (escape-sequence prints and `ui` draw state), and the
`ui.Render` draw call itself. -/
inductive MutTarget where
  | engineSortOpt
  | engineConns
  | engineDisplaySubs
  | waitingSortFlag
  | waitingLimitFlag
  | optionBufT
  | paragraphText
  | terminalSurface
  | renderCall
deriving DecidableEq

/-- Every write site of the targets above in `src/nats-top.go`, paired with
the execution context that performs it:
* `engine.SortOpt` — line 359 (loop);
* `engine.Conns` — line 396 (loop);
* `displaySubscriptions` / `engine.DisplaySubs` — lines 421-427 (loop);
* `waitingSortOption` — lines 374, 438, 455 (loop) and line 365 (the
  invalid-sort goroutine);
* `waitingLimitOption` — lines 399, 443, 454 (loop);
* `optionBuf` — lines 375, 381, 384, 400, 407, 410, 449 (loop) and
  line 368 (the invalid-sort goroutine);
* `text` / `par.Text` — line 281 (pre-loop, `StartUI` goroutine) and
  lines 318-319 (the `update` goroutine);
* terminal writes — the prompt prints at lines 386, 412, 437, 442, the
  `refreshOptionHeader` calls at lines 373, 382, 401, 408, 448 (loop), and
  the error print / `refreshOptionHeader` at lines 364, 367 (the
  invalid-sort goroutine);
* `ui.Render` — lines 344 and 465 (loop only). -/
def mutationSites : List (MutTarget × GoCtx) :=
  [(MutTarget.engineSortOpt, GoCtx.eventLoop),
   (MutTarget.engineConns, GoCtx.eventLoop),
   (MutTarget.engineDisplaySubs, GoCtx.eventLoop),
   (MutTarget.waitingSortFlag, GoCtx.eventLoop),
   (MutTarget.waitingSortFlag, GoCtx.dwellGoroutine),
   (MutTarget.waitingLimitFlag, GoCtx.eventLoop),
   (MutTarget.optionBufT, GoCtx.eventLoop),
   (MutTarget.optionBufT, GoCtx.dwellGoroutine),
   (MutTarget.paragraphText, GoCtx.eventLoop),
   (MutTarget.paragraphText, GoCtx.updateGoroutine),
   (MutTarget.terminalSurface, GoCtx.eventLoop),
   (MutTarget.terminalSurface, GoCtx.dwellGoroutine),
   (MutTarget.renderCall, GoCtx.eventLoop)]

/-- The mutual-exclusion invariant of claim C1: the two awaiting modes are
never both active. -/
def InvExcl (s : UIState) : Prop :=
  ¬(s.waitingSortOption = true ∧ s.waitingLimitOption = true)

lemma bufEdit_waitingSort (s : UIState) (e : Event) :
    (bufEdit s e).waitingSortOption = s.waitingSortOption := by
  unfold bufEdit; split_ifs <;> rfl

lemma bufEdit_waitingLimit (s : UIState) (e : Event) :
    (bufEdit s e).waitingLimitOption = s.waitingLimitOption := by
  unfold bufEdit; split_ifs <;> rfl

lemma afterH_excl (s : UIState) (e : Event) (h : InvExcl s) :
    InvExcl (afterH s e).st := h

lemma afterN_excl (s : UIState) (e : Event) (h : InvExcl s) :
    InvExcl (afterN s e).st := by
  unfold afterN
  split_ifs <;> simp_all [afterH, noEff, InvExcl]

lemma afterO_excl (s : UIState) (e : Event) (h : InvExcl s) :
    InvExcl (afterO s e).st := by
  unfold afterO
  split_ifs with h1
  · exact afterN_excl _ _ (by simp [InvExcl, h1.2.2.1])
  · exact afterN_excl _ _ h

lemma afterHelpDismiss_excl (s : UIState) (e : Event) (h : InvExcl s) :
    InvExcl (afterHelpDismiss s e).st := by
  unfold afterHelpDismiss
  split_ifs with h1
  · exact afterO_excl _ _ (by simp [InvExcl, h1.2.2.1])
  · exact afterO_excl _ _ h

lemma afterS_excl (s : UIState) (e : Event) (h : InvExcl s) :
    InvExcl (afterS s e).st := by
  unfold afterS
  split_ifs
  · simpa [noEff, InvExcl] using h
  · exact afterHelpDismiss_excl _ _ h

lemma afterQuit_excl (s : UIState) (e : Event) (h : InvExcl s) :
    InvExcl (afterQuit s e).st := by
  unfold afterQuit
  split_ifs
  · exact afterS_excl _ _ (by simpa [InvExcl] using h)
  · exact afterS_excl _ _ h

lemma afterLimit_excl (s : UIState) (e : Event) (h : InvExcl s) :
    InvExcl (afterLimit s e).st := by
  unfold afterLimit
  split_ifs
  · exact h
  · exact afterQuit_excl _ _ h

lemma afterSort_excl (s : UIState) (e : Event) (h : InvExcl s) :
    InvExcl (afterSort s e).st := by
  unfold afterSort
  split_ifs
  · rcases hd : sscanfD s.optionBuf with _ | n <;> simp [hd, noEff, InvExcl]
  · exact afterLimit_excl _ _
      (by simpa [InvExcl, bufEdit_waitingSort, bufEdit_waitingLimit] using h)
  · exact afterLimit_excl _ _ h

lemma handle_excl (s : UIState) (e : Event) (h : InvExcl s) :
    InvExcl (handle s e).st := by
  unfold handle
  split_ifs
  · simp [noEff, InvExcl]
  · simpa [InvExcl] using h
  · exact afterSort_excl _ _
      (by simpa [InvExcl, bufEdit_waitingSort, bufEdit_waitingLimit] using h)
  · exact afterSort_excl _ _ h

lemma stepAct_excl (s : UIState) (a : Act) (h : InvExcl s) :
    InvExcl (stepAct s a) := by
  cases a with
  | ev e => exact handle_excl s e h
  | dwellFlag =>
      unfold stepAct dwellFlagStep
      split_ifs <;> simp_all [InvExcl]
  | dwellClear =>
      unfold stepAct dwellClearStep
      split_ifs <;> simp_all [InvExcl]

lemma runActs_excl (acts : List Act) (s : UIState) (h : InvExcl s) :
    InvExcl (runActs s acts) := by
  induction acts generalizing s with
  | nil => exact h
  | cons a l ih => exact ih (stepAct s a) (stepAct_excl s a h)

/-- C1: from the initial state, over every interleaving of input events with
the asynchronous phases of spawned dwell goroutines, the two awaiting modes
are mutually exclusive — `waitingSortOption` and `waitingLimitOption` are
never both true. -/
theorem spec_C1 (engine : Engine) (acts : List Act) :
    ¬((runActs (initState engine) acts).waitingSortOption = true ∧
      (runActs (initState engine) acts).waitingLimitOption = true) :=
  runActs_excl acts (initState engine) (by simp [InvExcl, initState])

lemma sortConns_perm (opt : List Nat) (l : List Conn) :
    (sortConns opt l).Perm l := by
  unfold sortConns
  split_ifs <;> first | exact List.perm_insertionSort _ _ | exact List.Perm.refl l

lemma keySorted_sortConns (opt : List Nat) (l : List Conn) :
    keySorted opt (sortConns opt l) := by
  unfold sortConns keySorted
  split_ifs <;> exact List.sorted_insertionSort _ _

/-- C6: the rows `generateParagraph` renders are the full connection list
reordered by the active sort key — a permutation, with the sorted field
non-increasing for the count/byte keys and the connection id non-decreasing
for the id key — and the emitted text is the header block followed by one
rendered row per connection in exactly that order. -/
theorem spec_C6 (engine : Engine) (stats : Stats) :
    ((generateParagraph engine stats).2.Connz.Conns).Perm stats.Connz.Conns ∧
    keySorted engine.SortOpt (generateParagraph engine stats).2.Connz.Conns ∧
    (generateParagraph engine stats).1 =
      dashboardHeader engine stats ++
        String.join (((generateParagraph engine stats).2.Connz.Conns).map
          (connLine engine)) :=
  ⟨sortConns_perm _ _, keySorted_sortConns _ _, rfl⟩

/-- C7 fails on the code: `generateParagraph` sorts the snapshot's
connection slice in place.  On a snapshot whose connections arrive with ids
`[2, 1]` under the id sort key, the snapshot's connection sequence after the
call is `[1, 2]` — the same elements in a different order — so the snapshot
is not left unchanged. -/
theorem spec_C7_counterexample :
    (generateParagraph engine0 statsCex).2.Connz.Conns ≠ statsCex.Connz.Conns ∧
    (generateParagraph engine0 statsCex).2 ≠ statsCex ∧
    ((generateParagraph engine0 statsCex).2.Connz.Conns).map Conn.Cid = [1, 2] ∧
    (statsCex.Connz.Conns).map Conn.Cid = [2, 1] := by
  refine ⟨by decide, by decide, by decide, by decide⟩

/-- C7 amended: `generateParagraph` is deterministic and touches nothing
outside the snapshot's connection slice, but it does sort that slice in
place: after the call the sequence is exactly the key-sorted reordering — a
permutation of the original elements — while the vitals, rates and
connection count are unchanged. -/
theorem spec_C7_amended (engine : Engine) (stats : Stats) :
    (generateParagraph engine stats).2 =
      { stats with Connz := { stats.Connz with
          Conns := sortConns engine.SortOpt stats.Connz.Conns } } ∧
    ((generateParagraph engine stats).2.Connz.Conns).Perm stats.Connz.Conns ∧
    (generateParagraph engine stats).2.Varz = stats.Varz ∧
    (generateParagraph engine stats).2.Rates = stats.Rates ∧
    (generateParagraph engine stats).2.Connz.NumConns = stats.Connz.NumConns :=
  ⟨rfl, sortConns_perm _ _, rfl, rfl, rfl⟩

/-- C2: committing an unrecognized sort token leaves the engine configuration
(in particular `engine.SortOpt`) unchanged, spawns the inline error display
with its fixed 1-second dwell, and once the spawned goroutine's two phases
have run the machine is back in Normal mode with the buffer cleared — the
erroneous input is never applied. -/
theorem spec_C2 (s : UIState)
    (hs : s.waitingSortOption = true)
    (hl : s.waitingLimitOption = false)
    (hv : validSortToken s.optionBuf = false) :
    (handle s enterEvt).st.engine = s.engine ∧
    (handle s enterEvt).errDwell = some 1 ∧
    (dwellClearStep (dwellFlagStep (handle s enterEvt).st)).engine = s.engine ∧
    (dwellClearStep (dwellFlagStep (handle s enterEvt).st)).waitingSortOption = false ∧
    (dwellClearStep (dwellFlagStep (handle s enterEvt).st)).waitingLimitOption = false ∧
    (dwellClearStep (dwellFlagStep (handle s enterEvt).st)).optionBuf = [] := by
  unfold handle
  simp only [hs, enterEvt, if_true]
  simp only [hv, Bool.false_eq_true, if_false]
  simp [dwellFlagStep, dwellClearStep, hl]

/-- Witness for C2 at the concrete state `sortCexState` (sort prompt open,
buffer `xyz`). -/
theorem spec_C2_witness :
    (handle sortCexState enterEvt).st.engine = sortCexState.engine ∧
    (handle sortCexState enterEvt).errDwell = some 1 ∧
    (dwellClearStep (dwellFlagStep (handle sortCexState enterEvt).st)).engine
      = sortCexState.engine ∧
    (dwellClearStep (dwellFlagStep (handle sortCexState enterEvt).st)).waitingSortOption
      = false ∧
    (dwellClearStep (dwellFlagStep (handle sortCexState enterEvt).st)).waitingLimitOption
      = false ∧
    (dwellClearStep (dwellFlagStep (handle sortCexState enterEvt).st)).optionBuf = [] :=
  spec_C2 sortCexState rfl rfl (by decide)

/-- C3 fails on the code: `fmt.Sscanf` with `%d` parses a *signed* decimal
integer, so the buffer `-5` parses successfully and the negative value is
stored as the sample limit. -/
theorem spec_C3_counterexample :
    limitCexState.engine.Conns = 1024 ∧
    (handle limitCexState enterEvt).st.engine.Conns = -5 ∧
    (handle limitCexState enterEvt).st.engine.Conns < 0 := by
  refine ⟨by decide, by decide, by decide⟩

/-- C3 amended: committing the limit buffer parses it as a *signed* decimal
integer (Go `%d`): on success the sample limit is set to the parsed value —
which may be negative; on parse failure the limit is unchanged and the
buffer silently discarded; in either case the machine returns to Normal mode
with the buffer cleared, and the sort key is untouched. -/
theorem spec_C3_amended (s : UIState)
    (hl : s.waitingLimitOption = true)
    (hs : s.waitingSortOption = false) :
    (∀ n, sscanfD s.optionBuf = some n →
      (handle s enterEvt).st.engine.Conns = n) ∧
    (sscanfD s.optionBuf = none →
      (handle s enterEvt).st.engine.Conns = s.engine.Conns) ∧
    (handle s enterEvt).st.waitingLimitOption = false ∧
    (handle s enterEvt).st.waitingSortOption = false ∧
    (handle s enterEvt).st.optionBuf = [] ∧
    (handle s enterEvt).st.engine.SortOpt = s.engine.SortOpt := by
  unfold handle afterSort
  simp only [hs, hl, Bool.false_eq_true, if_false, if_true, enterEvt]
  rcases hd : sscanfD s.optionBuf with _ | n <;> simp [hd, noEff, hs]

/-- Witness for C3-as-amended: committing the buffer `12` stores limit 12
and leaves the limit mode. -/
theorem spec_C3_amended_witness :
    (handle { state0 with waitingLimitOption := true,
                          optionBuf := strBytes "12" } enterEvt).st.engine.Conns = 12 ∧
    (handle { state0 with waitingLimitOption := true,
                          optionBuf := strBytes "12" } enterEvt).st.waitingLimitOption
      = false :=
  ⟨(spec_C3_amended _ rfl rfl).1 12 (by decide),
   (spec_C3_amended _ rfl rfl).2.2.1⟩

/-- C4 fails on the code: the subscription-toggle block (lines 420-428) is
guarded only by the awaiting-mode flags, not by the view mode, and it runs
before the help-dismiss block — so pressing `s` while the Help view is
active both flips `engine.DisplaySubs` (a configuration change) and returns
to the Dashboard view. -/
theorem spec_C4_counterexample :
    helpState.viewMode = ViewMode.help ∧
    helpState.engine.DisplaySubs = false ∧
    (handle helpState (chEvt 's')).st.engine.DisplaySubs = true ∧
    (handle helpState (chEvt 's')).st.viewMode = ViewMode.top := by
  refine ⟨by decide, by decide, by decide, by decide⟩

/-- C4 amended: with no awaiting mode active, any non-quit key event in the
Help view returns to the Dashboard view leaving the sort key, the sample
limit and the buffer unchanged — but `s` additionally toggles
`engine.DisplaySubs`, because the toggle is guarded only by the awaiting
flags and not by the view; in the Dashboard view `s` toggles
`engine.DisplaySubs` with no other configuration change. -/
theorem spec_C4_amended (s : UIState) (e : Event)
    (hs : s.waitingSortOption = false)
    (hl : s.waitingLimitOption = false)
    (he : e.etype = EvType.key)
    (hq : e.Ch ≠ 'q')
    (hc : e.key ≠ KeyCode.ctrlC) :
    (s.viewMode = ViewMode.help →
      (handle s e).st.viewMode = ViewMode.top ∧
      (handle s e).st.engine.SortOpt = s.engine.SortOpt ∧
      (handle s e).st.engine.Conns = s.engine.Conns ∧
      (handle s e).st.optionBuf = s.optionBuf ∧
      (handle s e).st.engine.DisplaySubs =
        (if e.Ch = 's' then !s.engine.DisplaySubs else s.engine.DisplaySubs)) ∧
    (s.viewMode = ViewMode.top → e.Ch = 's' →
      (handle s e).st.viewMode = ViewMode.top ∧
      (handle s e).st.engine.DisplaySubs = !s.engine.DisplaySubs ∧
      (handle s e).st.engine.SortOpt = s.engine.SortOpt ∧
      (handle s e).st.engine.Conns = s.engine.Conns ∧
      (handle s e).st.optionBuf = s.optionBuf) := by
  constructor
  · intro hv
    by_cases hch : e.Ch = 's' <;>
      simp [handle, afterSort, afterLimit, afterQuit, afterS, noEff,
            hs, hl, he, hq, hc, hch, hv]
  · intro hv hch
    simp [handle, afterSort, afterLimit, afterQuit, afterS, afterHelpDismiss,
          afterO, afterN, afterH, noEff, hs, hl, he, hq, hc, hch, hv]

/-- Witness for C4-as-amended: a non-quit key (`x`) in the Help view returns
to the Dashboard with the sample limit untouched. -/
theorem spec_C4_amended_witness :
    (handle helpState (chEvt 'x')).st.viewMode = ViewMode.top ∧
    (handle helpState (chEvt 'x')).st.engine.Conns = helpState.engine.Conns :=
  ⟨((spec_C4_amended helpState (chEvt 'x') rfl rfl rfl (by decide) (by decide)).1
      rfl).1,
   ((spec_C4_amended helpState (chEvt 'x') rfl rfl rfl (by decide) (by decide)).1
      rfl).2.2.1⟩

lemma afterN_buf (s : UIState) (e : Event)
    (h : s.waitingSortOption = true ∨ s.waitingLimitOption = true) :
    (afterN s e).st.optionBuf = s.optionBuf := by
  unfold afterN
  split_ifs with h1 h2
  · exact absurd h h1.2.2
  · exact absurd h h1.2.2
  · rfl

lemma afterO_buf (s : UIState) (e : Event)
    (h : s.waitingSortOption = true ∨ s.waitingLimitOption = true) :
    (afterO s e).st.optionBuf = s.optionBuf := by
  unfold afterO
  split_ifs with h1
  · exact afterN_buf _ _ (Or.inr rfl)
  · exact afterN_buf _ _ h

lemma afterHelpDismiss_buf (s : UIState) (e : Event)
    (h : s.waitingSortOption = true ∨ s.waitingLimitOption = true) :
    (afterHelpDismiss s e).st.optionBuf = s.optionBuf := by
  unfold afterHelpDismiss
  split_ifs with h1
  · exact afterO_buf _ _ (Or.inl rfl)
  · exact afterO_buf _ _ h

lemma afterS_buf (s : UIState) (e : Event)
    (h : s.waitingSortOption = true ∨ s.waitingLimitOption = true) :
    (afterS s e).st.optionBuf = s.optionBuf := by
  unfold afterS
  split_ifs with h1
  · rfl
  · exact afterHelpDismiss_buf _ _ h

lemma afterQuit_buf (s : UIState) (e : Event)
    (h : s.waitingSortOption = true ∨ s.waitingLimitOption = true) :
    (afterQuit s e).st.optionBuf = s.optionBuf := by
  unfold afterQuit
  split_ifs with h1
  · exact afterS_buf _ _ h
  · exact afterS_buf _ _ h

lemma afterLimit_buf (s : UIState) (e : Event)
    (h : s.waitingSortOption = true ∨ s.waitingLimitOption = true) :
    (afterLimit s e).st.optionBuf = s.optionBuf := by
  unfold afterLimit
  split_ifs with h1
  · rfl
  · exact afterQuit_buf _ _ h

lemma bufEdit_backspace (s : UIState) :
    (bufEdit s backspaceEvt).optionBuf =
      if s.optionBuf = [] then [0] else s.optionBuf.dropLast := by
  unfold bufEdit backspaceEvt
  by_cases hb : s.optionBuf = [] <;> simp [hb]
  decide

lemma bufEdit_ch (s : UIState) (c : Char) :
    (bufEdit s (chEvt c)).optionBuf = s.optionBuf ++ utf8Char c := by
  simp [bufEdit, chEvt]

lemma handle_buf (s : UIState) (e : Event)
    (hx : s.waitingSortOption = true ∧ s.waitingLimitOption = false ∨
          s.waitingLimitOption = true ∧ s.waitingSortOption = false)
    (hNoEnter : e.key ≠ KeyCode.enter) :
    (handle s e).st.optionBuf = (bufEdit s e).optionBuf := by
  rcases hx with ⟨h1, h2⟩ | ⟨h1, h2⟩
  · unfold handle
    rw [if_pos h1, if_neg (by simp [hNoEnter])]
    unfold afterSort
    rw [if_neg (by rw [bufEdit_waitingLimit]; simp [h2])]
    exact afterLimit_buf _ e (Or.inl (by rw [bufEdit_waitingSort]; exact h1))
  · unfold handle
    rw [if_neg (by simp [h2])]
    unfold afterSort
    rw [if_pos h1, if_neg (by simp [hNoEnter])]
    exact afterLimit_buf _ e (Or.inr (by rw [bufEdit_waitingLimit]; exact h1))

/-- C5 fails on the code: in an awaiting mode with an *empty* buffer, a
backspace key event is not a no-op — the backspace branch requires
`len(optionBuf) > 0`, so the event falls into the append branch and
`optionBuf += string(e.Ch)` appends the event's zero rune, leaving the
buffer holding one NUL byte. -/
theorem spec_C5_counterexample :
    sortModeState.optionBuf = [] ∧
    (handle sortModeState backspaceEvt).st.optionBuf = [0] := by
  refine ⟨by decide, by decide⟩

/-- C5 amended: while an awaiting mode is active, a backspace event with a
non-empty buffer removes exactly the last byte of the buffer (the last
character for ASCII input), but with an empty buffer it appends the event's
zero rune — a NUL byte — instead of being a no-op; a printable-character
event appends exactly that character's UTF-8 bytes. -/
theorem spec_C5_amended (s : UIState)
    (haw : s.waitingSortOption = true ∧ s.waitingLimitOption = false ∨
           s.waitingLimitOption = true ∧ s.waitingSortOption = false) :
    ((handle s backspaceEvt).st.optionBuf =
       if s.optionBuf = [] then [0] else s.optionBuf.dropLast) ∧
    ∀ c : Char, (handle s (chEvt c)).st.optionBuf = s.optionBuf ++ utf8Char c := by
  constructor
  · rw [handle_buf s backspaceEvt haw (by simp [backspaceEvt])]
    exact bufEdit_backspace s
  · intro c
    rw [handle_buf s (chEvt c) haw (by simp [chEvt])]
    exact bufEdit_ch s c

/-- Witness for C5-as-amended at the concrete state with the sort prompt
open and buffer `cid`: backspace drops the final byte, and typing `x`
appends it. -/
theorem spec_C5_amended_witness :
    ((handle { state0 with waitingSortOption := true,
                           optionBuf := strBytes "cid" } backspaceEvt).st.optionBuf =
       if strBytes "cid" = ([] : List Nat) then [0] else (strBytes "cid").dropLast) ∧
    (handle { state0 with waitingSortOption := true,
                          optionBuf := strBytes "cid" } (chEvt 'x')).st.optionBuf =
      strBytes "cid" ++ utf8Char 'x' :=
  ⟨(spec_C5_amended _ (Or.inl ⟨rfl, rfl⟩)).1,
   (spec_C5_amended _ (Or.inl ⟨rfl, rfl⟩)).2 'x'⟩

lemma afterLimit_quit (s : UIState) (e : Event)
    (hq : e.etype = EvType.key ∧ (e.Ch = 'q' ∨ e.key = KeyCode.ctrlC)) :
    afterLimit s e =
      { st := s, quit := true, shutdownClosed := true, restores := 1,
        errDwell := none } := by
  unfold afterLimit
  rw [if_pos hq]

lemma afterSort_quit (s : UIState) (e : Event)
    (hq : e.etype = EvType.key ∧ (e.Ch = 'q' ∨ e.key = KeyCode.ctrlC))
    (hne : e.key ≠ KeyCode.enter) :
    (afterSort s e).quit = true ∧ (afterSort s e).shutdownClosed = true ∧
    (afterSort s e).restores = 1 := by
  unfold afterSort
  split_ifs with h1 h2
  · exact absurd h2.2 hne
  · rw [afterLimit_quit _ _ hq]
    exact ⟨rfl, rfl, rfl⟩
  · rw [afterLimit_quit _ _ hq]
    exact ⟨rfl, rfl, rfl⟩

/-- C8: a quit event — the rune `q` or the Ctrl-C key — is honored from
every combination of awaiting-mode flags, buffer, and view mode: processing
it closes the shutdown channel and performs the terminal-state restoration
of `cleanExit` exactly once. -/
theorem spec_C8 (s : UIState) (e : Event)
    (he : e.etype = EvType.key)
    (h : e.key = KeyCode.none ∧ e.Ch = 'q' ∨
         e.key = KeyCode.ctrlC ∧ e.Ch = Char.ofNat 0) :
    (handle s e).quit = true ∧ (handle s e).shutdownClosed = true ∧
    (handle s e).restores = 1 := by
  have hq : e.etype = EvType.key ∧ (e.Ch = 'q' ∨ e.key = KeyCode.ctrlC) := by
    rcases h with ⟨hk, hc⟩ | ⟨hk, hc⟩
    · exact ⟨he, Or.inl hc⟩
    · exact ⟨he, Or.inr hk⟩
  have hne : e.key ≠ KeyCode.enter := by
    rcases h with ⟨hk, _⟩ | ⟨hk, _⟩ <;> simp [hk]
  unfold handle
  split_ifs with h1 h2 h3
  · exact absurd h2.2 hne
  · exact absurd h2.2 hne
  · exact afterSort_quit _ _ hq hne
  · exact afterSort_quit _ _ hq hne

/-- Witness for C8: pressing `q` in the initial state quits with one
restoration. -/
theorem spec_C8_witness :
    (handle state0 (chEvt 'q')).quit = true ∧
    (handle state0 (chEvt 'q')).shutdownClosed = true ∧
    (handle state0 (chEvt 'q')).restores = 1 :=
  spec_C8 state0 (chEvt 'q') rfl (Or.inl ⟨rfl, rfl⟩)

/-- C9: from Normal mode in the Dashboard view with an empty buffer, the
typed sequence `o`,`b`,`y`,`t`,`e`,`s`,`_`,`t`,`o`,enter leaves the machine
in Normal mode with `engine.SortOpt` equal to the bytes-out token: the
trailing `o` keystroke is accumulated into the buffer (the `o` command
merely re-opens the already-open prompt without resetting the buffer). -/
theorem spec_C9 (s : UIState)
    (hs : s.waitingSortOption = false)
    (hl : s.waitingLimitOption = false)
    (hv : s.viewMode = ViewMode.top)
    (hb : s.optionBuf = []) :
    (runEvents s [chEvt 'o', chEvt 'b', chEvt 'y', chEvt 't', chEvt 'e',
        chEvt 's', chEvt '_', chEvt 't', chEvt 'o', enterEvt]).engine.SortOpt
      = SortByOutBytes ∧
    (runEvents s [chEvt 'o', chEvt 'b', chEvt 'y', chEvt 't', chEvt 'e',
        chEvt 's', chEvt '_', chEvt 't', chEvt 'o', enterEvt]).waitingSortOption
      = false ∧
    (runEvents s [chEvt 'o', chEvt 'b', chEvt 'y', chEvt 't', chEvt 'e',
        chEvt 's', chEvt '_', chEvt 't', chEvt 'o', enterEvt]).waitingLimitOption
      = false ∧
    (runEvents s [chEvt 'o', chEvt 'b', chEvt 'y', chEvt 't', chEvt 'e',
        chEvt 's', chEvt '_', chEvt 't', chEvt 'o', enterEvt]).optionBuf
      = [] := by
  rcases s with ⟨eng, ws, wl, ds, ob, vm, p1, p2⟩
  dsimp only at hs hl hv hb
  subst hs; subst hl; subst hv; subst hb
  have h1 : (handle (UIState.mk eng false false ds [] ViewMode.top p1 p2)
      (chEvt 'o')).st = UIState.mk eng true false ds [] ViewMode.top p1 p2 := rfl
  have h2 : (handle (UIState.mk eng true false ds [] ViewMode.top p1 p2)
      (chEvt 'b')).st = UIState.mk eng true false ds [98] ViewMode.top p1 p2 := rfl
  have h3 : (handle (UIState.mk eng true false ds [98] ViewMode.top p1 p2)
      (chEvt 'y')).st
      = UIState.mk eng true false ds [98, 121] ViewMode.top p1 p2 := rfl
  have h4 : (handle (UIState.mk eng true false ds [98, 121] ViewMode.top p1 p2)
      (chEvt 't')).st
      = UIState.mk eng true false ds [98, 121, 116] ViewMode.top p1 p2 := rfl
  have h5 : (handle (UIState.mk eng true false ds [98, 121, 116] ViewMode.top p1 p2)
      (chEvt 'e')).st
      = UIState.mk eng true false ds [98, 121, 116, 101] ViewMode.top p1 p2 := rfl
  have h6 : (handle (UIState.mk eng true false ds [98, 121, 116, 101]
      ViewMode.top p1 p2) (chEvt 's')).st
      = UIState.mk eng true false ds [98, 121, 116, 101, 115] ViewMode.top p1 p2 := rfl
  have h7 : (handle (UIState.mk eng true false ds [98, 121, 116, 101, 115]
      ViewMode.top p1 p2) (chEvt '_')).st
      = UIState.mk eng true false ds [98, 121, 116, 101, 115, 95]
          ViewMode.top p1 p2 := rfl
  have h8 : (handle (UIState.mk eng true false ds [98, 121, 116, 101, 115, 95]
      ViewMode.top p1 p2) (chEvt 't')).st
      = UIState.mk eng true false ds [98, 121, 116, 101, 115, 95, 116]
          ViewMode.top p1 p2 := rfl
  have h9 : (handle (UIState.mk eng true false ds [98, 121, 116, 101, 115, 95, 116]
      ViewMode.top p1 p2) (chEvt 'o')).st
      = UIState.mk eng true false ds [98, 121, 116, 101, 115, 95, 116, 111]
          ViewMode.top p1 p2 := rfl
  have h10 : (handle (UIState.mk eng true false ds
      [98, 121, 116, 101, 115, 95, 116, 111] ViewMode.top p1 p2) enterEvt).st
      = UIState.mk { eng with SortOpt := [98, 121, 116, 101, 115, 95, 116, 111] }
          false false ds [] ViewMode.top p1 p2 := rfl
  have hrun : runEvents (UIState.mk eng false false ds [] ViewMode.top p1 p2)
      [chEvt 'o', chEvt 'b', chEvt 'y', chEvt 't', chEvt 'e',
       chEvt 's', chEvt '_', chEvt 't', chEvt 'o', enterEvt]
      = UIState.mk { eng with SortOpt := [98, 121, 116, 101, 115, 95, 116, 111] }
          false false ds [] ViewMode.top p1 p2 := by
    simp only [runEvents, List.foldl_cons, List.foldl_nil]
    rw [h1, h2, h3, h4, h5, h6, h7, h8, h9, h10]
  rw [hrun]
  exact ⟨rfl, rfl, rfl, rfl⟩

/-- Witness for C9 at the concrete initial state. -/
theorem spec_C9_witness :
    (runEvents state0 [chEvt 'o', chEvt 'b', chEvt 'y', chEvt 't', chEvt 'e',
        chEvt 's', chEvt '_', chEvt 't', chEvt 'o', enterEvt]).engine.SortOpt
      = SortByOutBytes ∧
    (runEvents state0 [chEvt 'o', chEvt 'b', chEvt 'y', chEvt 't', chEvt 'e',
        chEvt 's', chEvt '_', chEvt 't', chEvt 'o', enterEvt]).waitingSortOption
      = false ∧
    (runEvents state0 [chEvt 'o', chEvt 'b', chEvt 'y', chEvt 't', chEvt 'e',
        chEvt 's', chEvt '_', chEvt 't', chEvt 'o', enterEvt]).waitingLimitOption
      = false ∧
    (runEvents state0 [chEvt 'o', chEvt 'b', chEvt 'y', chEvt 't', chEvt 'e',
        chEvt 's', chEvt '_', chEvt 't', chEvt 'o', enterEvt]).optionBuf
      = [] :=
  spec_C9 state0 rfl rfl rfl rfl

/-- C10 fails on the code: three of the listed write sites run outside the
event-loop goroutine — the invalid-sort dwell goroutine writes
`waitingSortOption` (line 365) and `optionBuf` (line 368) and prints to the
terminal (lines 364, 367), and the `update` goroutine writes the shared
paragraph text (lines 318-319) — so not every mutation of the protected
state happens on the single select/wait thread, and the terminal surface is
touched by two execution contexts. -/
theorem spec_C10_counterexample :
    (MutTarget.waitingSortFlag, GoCtx.dwellGoroutine) ∈ mutationSites ∧
    (MutTarget.optionBufT, GoCtx.dwellGoroutine) ∈ mutationSites ∧
    (MutTarget.paragraphText, GoCtx.updateGoroutine) ∈ mutationSites ∧
    (MutTarget.terminalSurface, GoCtx.dwellGoroutine) ∈ mutationSites ∧
    (mutationSites.all (fun site => decide (site.2 = GoCtx.eventLoop))) = false := by
  refine ⟨by decide, by decide, by decide, by decide, by decide⟩

/-- C10 amended: every write site of the shared dashboard state runs on the
event-loop goroutine *except* the dwell goroutine's writes of
`waitingSortOption`, `optionBuf` and the terminal surface, and the `update`
goroutine's write of the shared paragraph text; in particular the engine
configuration fields and `waitingLimitOption` are mutated only on the event
loop, and the `ui.Render` draw call is issued only from the event loop's
consuming path. -/
theorem spec_C10_amended :
    (mutationSites.all (fun site =>
        decide (site.2 = GoCtx.eventLoop) ||
        decide (site = (MutTarget.waitingSortFlag, GoCtx.dwellGoroutine)) ||
        decide (site = (MutTarget.optionBufT, GoCtx.dwellGoroutine)) ||
        decide (site = (MutTarget.terminalSurface, GoCtx.dwellGoroutine)) ||
        decide (site = (MutTarget.paragraphText, GoCtx.updateGoroutine)))) = true ∧
    (mutationSites.all (fun site =>
        decide (¬(site.1 = MutTarget.renderCall) ∨
                site.2 = GoCtx.eventLoop))) = true ∧
    (mutationSites.all (fun site =>
        decide (¬(site.1 = MutTarget.engineSortOpt ∨
                  site.1 = MutTarget.engineConns ∨
                  site.1 = MutTarget.engineDisplaySubs ∨
                  site.1 = MutTarget.waitingLimitFlag) ∨
                site.2 = GoCtx.eventLoop))) = true := by
  refine ⟨by decide, by decide, by decide⟩
